import Mathlib

/-!
Verification of the sun-times temperature engine of NightTimeTemperature.

Instants (Python `datetime` values in UTC) are modelled as integers counting
microseconds from an arbitrary midnight-aligned epoch; `dayLength` is
`timedelta(days=1)`, and the time-of-day of an instant (Python `.time()`) is
its residue modulo `dayLength`.  Python exceptions (the `ZeroDivisionError`
raised by `timedelta / timedelta(0)`) are modelled by `Option`: `none` means
the call raises.  Exact rational arithmetic stands in for float division of
`timedelta`s, and `pythonRound` models Python's builtin `round`
(nearest integer, ties to even).
-/

/-- Microseconds in one day: `timedelta(days=1)`. -/
def dayLength : ℤ := 86400000000

/-- Time-of-day of an instant, as Python `datetime.time()`: microseconds since
the most recent midnight. -/
def timeOfDay (t : ℤ) : ℤ := t % dayLength

/-- Calendar day of an instant (number of whole days since the epoch). -/
def dayOf (t : ℤ) : ℤ := t / dayLength

/-- Convenience: the instant `h:mm` on day 0, in microseconds. -/
def hm (h m : ℤ) : ℤ := ((h * 60 + m) * 60) * 1000000

/-- The `SunTimes` dataclass of `app/sun_times.py`, after
`combine_times_with_date` has promoted every field to a full `datetime`.
The two midday fields start out as `None` in Python and are written by
`calculate_midday_period` before any read; here they are plain integers
initialised by the constructor. -/
structure SunTimes where
  sunrise : ℤ
  sunset : ℤ
  morning_twilight : ℤ
  night_twilight : ℤ
  midday_period_begins : ℤ
  midday_period_ends : ℤ
  user_time : ℤ
deriving DecidableEq, Repr

/-- The `combine_times_with_date` step of `SunTimes.process_sun_times`: the
four time-of-day values reported by the provider are all anchored to the
calendar day `d` (the date of `user_time`); the midday fields are not yet
meaningful (Python `None`, here 0). -/
def combine_times_with_date (d sunrise sunset morning_twilight night_twilight user_time : ℤ) :
    SunTimes :=
  ⟨d * dayLength + sunrise, d * dayLength + sunset, d * dayLength + morning_twilight,
    d * dayLength + night_twilight, 0, 0, user_time⟩

namespace DateAdjustment

/-- Model of `DateAdjustment.sunrise_before_twilight` of
`process_response_utils/date_adjustment.py`: advance `user_time` by one day
when its time-of-day lies in `[00:00, sunrise.time())`, then advance
`sunrise`, `sunset` and `night_twilight` by one day. -/
def sunrise_before_twilight (s : SunTimes) : SunTimes :=
  let u := if 0 ≤ timeOfDay s.user_time ∧ timeOfDay s.user_time < timeOfDay s.sunrise then
    s.user_time + dayLength else s.user_time
  { s with user_time := u, sunrise := s.sunrise + dayLength,
           sunset := s.sunset + dayLength, night_twilight := s.night_twilight + dayLength }

/-- Model of `DateAdjustment.sunset_before_sunrise`: advance `user_time` by one day when
its time-of-day lies in `[00:00, night_twilight.time())`, then advance
`sunset` and `night_twilight` by one day. -/
def sunset_before_sunrise (s : SunTimes) : SunTimes :=
  let u := if 0 ≤ timeOfDay s.user_time ∧ timeOfDay s.user_time < timeOfDay s.night_twilight then
    s.user_time + dayLength else s.user_time
  { s with user_time := u, sunset := s.sunset + dayLength,
           night_twilight := s.night_twilight + dayLength }

/-- Model of `DateAdjustment.night_twilight_before_sunset`: advance `user_time` by one
day when its time-of-day lies in `[00:00, night_twilight.time())`, then
advance `night_twilight` by one day. -/
def night_twilight_before_sunset (s : SunTimes) : SunTimes :=
  let u := if 0 ≤ timeOfDay s.user_time ∧ timeOfDay s.user_time < timeOfDay s.night_twilight then
    s.user_time + dayLength else s.user_time
  { s with user_time := u, night_twilight := s.night_twilight + dayLength }

/-- Model of `AbstractDateAdjustment.adjust_dates`: the three ordered conditional
corrections, each later check seeing the values corrected by earlier ones. -/
def adjust_dates (s : SunTimes) : SunTimes :=
  let s1 := if s.sunrise < s.morning_twilight then sunrise_before_twilight s else s
  let s2 := if s1.sunset < s1.sunrise then sunset_before_sunrise s1 else s1
  if s2.night_twilight < s2.sunset then night_twilight_before_sunset s2 else s2

end DateAdjustment

namespace MiddayPeriodCalculator

/-- Model of `MiddayPeriodCalculator.calculate_midday_period` of
`process_response_utils/midday_calculator.py`: mirror each twilight duration
across sunrise resp. sunset. -/
def calculate_midday_period (s : SunTimes) : SunTimes :=
  { s with midday_period_begins := s.sunrise + (s.sunrise - s.morning_twilight),
           midday_period_ends := s.sunset - (s.night_twilight - s.sunset) }

/-- Model of `MiddayPeriodCalculator.midday_period_adjustment`: two conditional one-day
fix-ups of the computed midday boundaries. -/
def midday_period_adjustment (s : SunTimes) : SunTimes :=
  let s1 := if s.midday_period_begins < s.sunrise ∨ s.midday_period_begins < s.morning_twilight
    then { s with midday_period_begins := s.midday_period_begins + dayLength } else s
  if s1.midday_period_ends < s1.midday_period_begins then
    { s1 with midday_period_ends := s1.midday_period_ends + dayLength } else s1

/-- Model of `AbstractMiddayPeriodCalculator.process_midday_period`: calculation
followed by adjustment. -/
def process_midday_period (s : SunTimes) : SunTimes :=
  midday_period_adjustment (calculate_midday_period s)

end MiddayPeriodCalculator

/-- Python's builtin `round` on an exact rational: nearest integer, ties go to
the even neighbour. -/
def pythonRound (q : ℚ) : ℤ :=
  if q - q.floor < 1 / 2 then q.floor
  else if q - q.floor > 1 / 2 then q.floor + 1
  else if q.floor % 2 = 0 then q.floor else q.floor + 1

namespace ProportionCalculator

/-- Model of `ProportionCalculator.calculate_user_proportion` of
`calculate_temp_utils/proportion_calculator.py`:
`(user_time - start_time) / (2 * interval_length)` on `timedelta`s.  Dividing
by `2 * timedelta(0)` raises `ZeroDivisionError`, modelled as `none`. -/
def calculate_user_proportion (user_time start_time interval_length : ℤ) : Option ℚ :=
  if 2 * interval_length = 0 then none
  else some (((user_time - start_time : ℤ) : ℚ) / ((2 * interval_length : ℤ) : ℚ))

/-- Model of `ProportionCalculator.get_user_prop_morning`: proportion of the user into
the interval starting at `morning_twilight` of length `sunrise −
morning_twilight`. -/
def get_user_prop_morning (s : SunTimes) : Option ℚ :=
  calculate_user_proportion s.user_time s.morning_twilight (s.sunrise - s.morning_twilight)

/-- Model of `ProportionCalculator.get_user_prop_night`: proportion of the user past
`midday_period_ends`, measured against the length `night_twilight − sunset`. -/
def get_user_prop_night (s : SunTimes) : Option ℚ :=
  calculate_user_proportion s.user_time s.midday_period_ends (s.night_twilight - s.sunset)

end ProportionCalculator

namespace GetTemp

/-- Model of `GetTemp.user_in_midday_period` of `calculate_temp_utils/get_temp.py`:
the configured `HI_TEMP`. -/
def user_in_midday_period (HI : ℤ) : ℤ := HI

/-- Model of `GetTemp.user_in_night_period`: the configured `LO_TEMP`. -/
def user_in_night_period (LO : ℤ) : ℤ := LO

/-- Model of `GetTemp.user_in_morning_twilight`: `round(LO + (HI - LO) * morning_prop)`. -/
def user_in_morning_twilight (HI LO : ℤ) (morning_prop : ℚ) : ℤ :=
  pythonRound ((LO : ℚ) + ((HI : ℚ) - (LO : ℚ)) * morning_prop)

/-- Model of `GetTemp.user_in_night_twilight`: `round(HI - (HI - LO) * night_prop)`. -/
def user_in_night_twilight (HI LO : ℤ) (night_prop : ℚ) : ℤ :=
  pythonRound ((HI : ℚ) - ((HI : ℚ) - (LO : ℚ)) * night_prop)

end GetTemp

namespace TimeIntervalCalculator

/-- Model of `TimeIntervalCalculator.instantiate_proportion` of
`calculate_temp_utils/get_user_time_interval.py`: both proportions are
computed eagerly; if either raises, the pair raises. -/
def instantiate_proportion (s : SunTimes) : Option (ℚ × ℚ) :=
  (ProportionCalculator.get_user_prop_morning s).bind fun morning_prop =>
    (ProportionCalculator.get_user_prop_night s).bind fun night_prop =>
      some (morning_prop, night_prop)

/-- Model of `TimeIntervalCalculator.get_interval`: classify `user_time` against the
six instants, in the source's branch order, and return the region's
temperature.  `HI` and `LO` are the Flask config entries `HI_TEMP` and
`LO_TEMP`.  A `ZeroDivisionError` raised while computing the proportions
propagates (`none`). -/
def get_interval (HI LO : ℤ) (s : SunTimes) : Option ℤ :=
  (instantiate_proportion s).map fun props =>
    if s.midday_period_begins < s.user_time ∧ s.user_time < s.midday_period_ends then
      GetTemp.user_in_midday_period HI
    else if s.morning_twilight ≤ s.user_time ∧ s.user_time ≤ s.midday_period_begins then
      GetTemp.user_in_morning_twilight HI LO props.1
    else if s.midday_period_ends ≤ s.user_time ∧ s.user_time ≤ s.night_twilight then
      GetTemp.user_in_night_twilight HI LO props.2
    else
      GetTemp.user_in_night_period LO

end TimeIntervalCalculator

/-- Regionwise description of `get_interval` transcribed from the spec (§4.3
of the design document): the four regions in their stated priority, with the
ramp formulas written out and the result rounded as Python `round` does. -/
def get_interval_spec (HI LO : ℤ) (s : SunTimes) : ℤ :=
  if s.midday_period_begins < s.user_time ∧ s.user_time < s.midday_period_ends then
    HI
  else if s.morning_twilight ≤ s.user_time ∧ s.user_time ≤ s.midday_period_begins then
    pythonRound ((LO : ℚ) + ((HI : ℚ) - (LO : ℚ)) *
      (((s.user_time - s.morning_twilight : ℤ) : ℚ) /
        ((2 * (s.sunrise - s.morning_twilight) : ℤ) : ℚ)))
  else if s.midday_period_ends ≤ s.user_time ∧ s.user_time ≤ s.night_twilight then
    pythonRound ((HI : ℚ) - ((HI : ℚ) - (LO : ℚ)) *
      (((s.user_time - s.midday_period_ends : ℤ) : ℚ) /
        ((2 * (s.night_twilight - s.sunset) : ℤ) : ℚ)))
  else
    LO

/-! Concrete states used by the example theorems and witnesses below. -/

/-- The §8 concrete scenario run through the whole engine: phases
`morning_twilight=05:30, sunrise=06:00, sunset=18:00, night_twilight=18:30`
anchored to day 0, evaluated at `user_time = u`. -/
def scenarioPipeline (u : ℤ) : SunTimes :=
  MiddayPeriodCalculator.process_midday_period
    (DateAdjustment.adjust_dates
      (combine_times_with_date 0 (hm 6 0) (hm 18 0) (hm 5 30) (hm 18 30) u))

/-- The midnight-wrap input of §8: `morning_twilight=23:30, sunrise=00:30,
sunset=09:00, night_twilight=10:30`, `now=23:45`, all on day 0. -/
def wrapState : SunTimes :=
  combine_times_with_date 0 (hm 0 30) (hm 9 0) (hm 23 30) (hm 10 30) (hm 23 45)

/-- An already-processed state of the §8 scenario (midday fields filled in),
evaluated at 16:00. -/
def regionState : SunTimes :=
  ⟨hm 6 0, hm 18 0, hm 5 30, hm 18 30, hm 6 30, hm 17 30, hm 16 0⟩

/-- An ordered state whose morning twilight has zero length
(`morning_twilight = sunrise = midday_period_begins = 06:00`), evaluated at
noon, inside the midday plateau. -/
def zeroTwilightState : SunTimes :=
  ⟨hm 6 0, hm 18 0, hm 6 0, hm 18 30, hm 6 0, hm 17 30, hm 12 0⟩

/-- A normalised state with five-hour twilights but only six hours of
daylight: `morning_twilight=05:00, sunrise=10:00, sunset=16:00,
night_twilight=21:00`. -/
def asymState : SunTimes :=
  ⟨hm 10 0, hm 16 0, hm 5 0, hm 21 0, 0, 0, hm 12 0⟩


/-- Transcription of C4's wording: three ordered conditional corrections,
each correction advancing the listed phase fields by one day and advancing
`user_time` by one day exactly when its time-of-day lies in the stated
half-open interval, with each later check reading the values already
corrected by the earlier ones. -/
def adjust_dates_three_step (s : SunTimes) : SunTimes :=
  let s1 := if s.sunrise < s.morning_twilight then
    { s with sunrise := s.sunrise + dayLength, sunset := s.sunset + dayLength,
             night_twilight := s.night_twilight + dayLength,
             user_time :=
               (if 0 ≤ timeOfDay s.user_time ∧ timeOfDay s.user_time < timeOfDay s.sunrise
                 then s.user_time + dayLength else s.user_time) }
    else s
  let s2 := if s1.sunset < s1.sunrise then
    { s1 with sunset := s1.sunset + dayLength,
              night_twilight := s1.night_twilight + dayLength,
              user_time :=
                (if 0 ≤ timeOfDay s1.user_time ∧
                    timeOfDay s1.user_time < timeOfDay s1.night_twilight
                  then s1.user_time + dayLength else s1.user_time) }
    else s1
  if s2.night_twilight < s2.sunset then
    { s2 with night_twilight := s2.night_twilight + dayLength,
              user_time :=
                (if 0 ≤ timeOfDay s2.user_time ∧
                    timeOfDay s2.user_time < timeOfDay s2.night_twilight
                  then s2.user_time + dayLength else s2.user_time) }
    else s2

/-- Rounding an integer is the identity. -/
theorem pythonRound_intCast (n : ℤ) : pythonRound ((n : ℤ) : ℚ) = n := by
  have hden : ((n : ℤ) : ℚ).den = 1 := Rat.den_intCast n
  have hnum : ((n : ℤ) : ℚ).num = n := Rat.num_intCast n
  have hfl : ((n : ℤ) : ℚ).floor = n := by
    rw [Rat.floor, if_pos hden, hnum]
  unfold pythonRound
  rw [hfl]
  norm_num

/-- Rounding a rational that happens to be an integer yields that integer. -/
theorem pythonRound_eq_intCast (q : ℚ) (n : ℤ) (h : q = (n : ℚ)) : pythonRound q = n := by
  rw [h, pythonRound_intCast]

/-- Shared evaluation lemma: as soon as both twilight durations are nonzero,
neither proportion raises and `get_interval` computes exactly the regionwise
description `get_interval_spec`. -/
theorem get_interval_eval (HI LO : ℤ) (s : SunTimes)
    (hmor : s.sunrise - s.morning_twilight ≠ 0)
    (hnig : s.night_twilight - s.sunset ≠ 0) :
    TimeIntervalCalculator.get_interval HI LO s = some (get_interval_spec HI LO s) := by
  have hm2 : ¬(2 * (s.sunrise - s.morning_twilight) = 0) := by omega
  have hn2 : ¬(2 * (s.night_twilight - s.sunset) = 0) := by omega
  simp only [TimeIntervalCalculator.get_interval, TimeIntervalCalculator.instantiate_proportion,
    ProportionCalculator.get_user_prop_morning, ProportionCalculator.get_user_prop_night,
    ProportionCalculator.calculate_user_proportion, if_neg hm2, if_neg hn2,
    Option.some_bind, Option.map_some', get_interval_spec,
    GetTemp.user_in_midday_period, GetTemp.user_in_morning_twilight,
    GetTemp.user_in_night_twilight, GetTemp.user_in_night_period]

/-- Characterisation of `adjust_dates` on four same-day time-of-day inputs:
`morning_twilight` keeps its anchoring, and the three consecutive gaps of the
normalised phases are the cyclic (mod one day) gaps of the raw
time-of-day values.  In particular the normalised phases are totally
ordered. -/
theorem adjust_dates_sameDay (d sr ss mt nt u : ℤ) (r : SunTimes)
    (h1 : 0 ≤ mt ∧ mt < dayLength) (h2 : 0 ≤ sr ∧ sr < dayLength)
    (h3 : 0 ≤ ss ∧ ss < dayLength) (h4 : 0 ≤ nt ∧ nt < dayLength)
    (hr : r = DateAdjustment.adjust_dates (combine_times_with_date d sr ss mt nt u)) :
    r.morning_twilight = d * dayLength + mt ∧
    r.sunrise - r.morning_twilight = (sr - mt) % dayLength ∧
    r.sunset - r.sunrise = (ss - sr) % dayLength ∧
    r.night_twilight - r.sunset = (nt - ss) % dayLength := by
  subst hr
  dsimp only [DateAdjustment.adjust_dates, DateAdjustment.sunrise_before_twilight,
    DateAdjustment.sunset_before_sunrise, DateAdjustment.night_twilight_before_sunset,
    combine_times_with_date, timeOfDay, dayLength] at h1 h2 h3 h4 ⊢
  split_ifs <;> (try dsimp only at *) <;> omega

/-- Frame property: `process_midday_period` writes only the two midday fields; the four
phases and the user time are untouched. -/
theorem process_midday_frame (s : SunTimes) :
    (MiddayPeriodCalculator.process_midday_period s).sunrise = s.sunrise ∧
    (MiddayPeriodCalculator.process_midday_period s).sunset = s.sunset ∧
    (MiddayPeriodCalculator.process_midday_period s).morning_twilight = s.morning_twilight ∧
    (MiddayPeriodCalculator.process_midday_period s).night_twilight = s.night_twilight ∧
    (MiddayPeriodCalculator.process_midday_period s).user_time = s.user_time := by
  obtain ⟨a, b, c, d, e, f, g⟩ := s
  simp only [MiddayPeriodCalculator.process_midday_period,
    MiddayPeriodCalculator.calculate_midday_period,
    MiddayPeriodCalculator.midday_period_adjustment]
  split_ifs <;> exact ⟨rfl, rfl, rfl, rfl, rfl⟩

/-- On a normalised state whose mirrored plateau is non-empty, neither midday
fix-up fires: the midday boundaries are exactly the mirrored values. -/
theorem process_midday_values (s : SunTimes)
    (hmt : s.morning_twilight ≤ s.sunrise)
    (hnt : s.sunset ≤ s.night_twilight)
    (hpl : s.sunrise + (s.sunrise - s.morning_twilight) ≤
      s.sunset - (s.night_twilight - s.sunset)) :
    (MiddayPeriodCalculator.process_midday_period s).midday_period_begins =
      s.sunrise + (s.sunrise - s.morning_twilight) ∧
    (MiddayPeriodCalculator.process_midday_period s).midday_period_ends =
      s.sunset - (s.night_twilight - s.sunset) := by
  obtain ⟨a, b, c, d, e, f, g⟩ := s
  dsimp only at hmt hnt hpl
  dsimp only [MiddayPeriodCalculator.process_midday_period,
    MiddayPeriodCalculator.calculate_midday_period,
    MiddayPeriodCalculator.midday_period_adjustment]
  split_ifs <;> (try dsimp only at *) <;> omega


/-- C1: for four same-day time-of-day inputs forming a non-degenerate daily
cycle — formalised, following §9 of the spec, as each twilight duration being
at most half of the sunrise-to-sunset daylight duration (all measured
cyclically, mod one day) — running `adjust_dates` and then
`process_midday_period` yields the six-instant total order
`morning_twilight ≤ sunrise ≤ midday_period_begins ≤ midday_period_ends ≤
sunset ≤ night_twilight`. -/
theorem pipeline_total_order (d sr ss mt nt u : ℤ) (r : SunTimes)
    (hmt : 0 ≤ mt ∧ mt < dayLength) (hsr : 0 ≤ sr ∧ sr < dayLength)
    (hss : 0 ≤ ss ∧ ss < dayLength) (hnt : 0 ≤ nt ∧ nt < dayLength)
    (hdeg : 2 * ((sr - mt) % dayLength) ≤ (ss - sr) % dayLength ∧
      2 * ((nt - ss) % dayLength) ≤ (ss - sr) % dayLength)
    (hr : r = MiddayPeriodCalculator.process_midday_period
      (DateAdjustment.adjust_dates (combine_times_with_date d sr ss mt nt u))) :
    r.morning_twilight ≤ r.sunrise ∧ r.sunrise ≤ r.midday_period_begins ∧
    r.midday_period_begins ≤ r.midday_period_ends ∧
    r.midday_period_ends ≤ r.sunset ∧ r.sunset ≤ r.night_twilight := by
  obtain ⟨hA1, hA2, hA3, hA4⟩ :=
    adjust_dates_sameDay d sr ss mt nt u
      (DateAdjustment.adjust_dates (combine_times_with_date d sr ss mt nt u))
      hmt hsr hss hnt rfl
  subst hr
  set s := DateAdjustment.adjust_dates (combine_times_with_date d sr ss mt nt u) with hs
  simp only [dayLength] at hA2 hA3 hA4 hdeg
  have hmt' : s.morning_twilight ≤ s.sunrise := by omega
  have hnt' : s.sunset ≤ s.night_twilight := by omega
  have hpl : s.sunrise + (s.sunrise - s.morning_twilight) ≤
      s.sunset - (s.night_twilight - s.sunset) := by omega
  obtain ⟨hb, he⟩ := process_midday_values s hmt' hnt' hpl
  obtain ⟨f1, f2, f3, f4, _⟩ := process_midday_frame s
  refine ⟨?_, ?_, ?_, ?_, ?_⟩ <;> omega

/-- Witness for `pipeline_total_order` at the §8 scenario (30-minute
twilights, 12 hours of daylight), evaluated at noon. -/
theorem pipeline_total_order_witness :
    (scenarioPipeline (hm 12 0)).morning_twilight ≤ (scenarioPipeline (hm 12 0)).sunrise ∧
    (scenarioPipeline (hm 12 0)).sunrise ≤ (scenarioPipeline (hm 12 0)).midday_period_begins ∧
    (scenarioPipeline (hm 12 0)).midday_period_begins ≤
      (scenarioPipeline (hm 12 0)).midday_period_ends ∧
    (scenarioPipeline (hm 12 0)).midday_period_ends ≤ (scenarioPipeline (hm 12 0)).sunset ∧
    (scenarioPipeline (hm 12 0)).sunset ≤ (scenarioPipeline (hm 12 0)).night_twilight :=
  pipeline_total_order 0 (hm 6 0) (hm 18 0) (hm 5 30) (hm 18 30) (hm 12 0)
    (scenarioPipeline (hm 12 0)) (by decide) (by decide) (by decide) (by decide)
    (by decide) rfl

/-- Counterexample to C2 as stated: `zeroTwilightState` satisfies the
six-instant total order and `HI > LO`, and its `user_time` lies strictly
inside the midday plateau, yet `get_interval` does not return `HI` — it
raises `ZeroDivisionError` (modelled as `none`), because both proportions are
computed eagerly and the morning twilight has zero length. -/
theorem get_interval_zero_twilight_cex :
    (zeroTwilightState.morning_twilight ≤ zeroTwilightState.sunrise ∧
      zeroTwilightState.sunrise ≤ zeroTwilightState.midday_period_begins ∧
      zeroTwilightState.midday_period_begins ≤ zeroTwilightState.midday_period_ends ∧
      zeroTwilightState.midday_period_ends ≤ zeroTwilightState.sunset ∧
      zeroTwilightState.sunset ≤ zeroTwilightState.night_twilight) ∧
    (2700 : ℤ) < 6000 ∧
    zeroTwilightState.midday_period_begins < zeroTwilightState.user_time ∧
    zeroTwilightState.user_time < zeroTwilightState.midday_period_ends ∧
    TimeIntervalCalculator.get_interval 6000 2700 zeroTwilightState = none := by decide

/-- C2 as amended: under the six-instant total order, `HI > LO`, and — the
amendment forced by `get_interval_zero_twilight_cex` — strictly positive
twilight durations, `get_interval` returns exactly the regionwise value of
the spec (`get_interval_spec`): `HI` strictly inside the plateau, the rounded
morning and evening ramp formulas on the closed twilight-to-plateau
intervals in the stated priority, and `LO` otherwise. -/
theorem get_interval_regions (HI LO : ℤ) (s : SunTimes)
    (hHL : LO < HI)
    (horder : s.morning_twilight ≤ s.sunrise ∧ s.sunrise ≤ s.midday_period_begins ∧
      s.midday_period_begins ≤ s.midday_period_ends ∧ s.midday_period_ends ≤ s.sunset ∧
      s.sunset ≤ s.night_twilight)
    (hmor : s.morning_twilight < s.sunrise)
    (hnig : s.sunset < s.night_twilight) :
    TimeIntervalCalculator.get_interval HI LO s = some (get_interval_spec HI LO s) :=
  get_interval_eval HI LO s (by omega) (by omega)

/-- Witness for `get_interval_regions` at the §8 scenario state. -/
theorem get_interval_regions_witness :
    TimeIntervalCalculator.get_interval 6000 2700 regionState =
      some (get_interval_spec 6000 2700 regionState) :=
  get_interval_regions 6000 2700 regionState (by decide) (by decide) (by decide) (by decide)

/-- Counterexample to C3 as stated: with a zero-length morning twilight
(`morning_twilight = sunrise = 06:00`), the full engine — `adjust_dates`,
then `process_midday_period`, then `get_interval` — raises
`ZeroDivisionError` (modelled as `none`) at `user_time` noon, so the engine
is not total on every self-consistent input. -/
theorem engine_zero_twilight_raises_cex :
    TimeIntervalCalculator.get_interval 6000 2700
      (MiddayPeriodCalculator.process_midday_period
        (DateAdjustment.adjust_dates
          (combine_times_with_date 0 (hm 6 0) (hm 18 0) (hm 6 0) (hm 18 30) (hm 12 0))))
      = none := by decide

/-- C3 as amended: `adjust_dates` and `process_midday_period` are total by
construction, and `get_interval` composed after them never raises provided
both twilight durations are nonzero (the amendment forced by
`engine_zero_twilight_raises_cex`); this holds for every evaluation instant
`u` and every anchoring day `d`. -/
theorem engine_total_pos_twilight (HI LO d sr ss mt nt u : ℤ) (r : SunTimes)
    (hmt : 0 ≤ mt ∧ mt < dayLength) (hsr : 0 ≤ sr ∧ sr < dayLength)
    (hss : 0 ≤ ss ∧ ss < dayLength) (hnt : 0 ≤ nt ∧ nt < dayLength)
    (hm0 : sr ≠ mt) (hn0 : nt ≠ ss)
    (hr : r = MiddayPeriodCalculator.process_midday_period
      (DateAdjustment.adjust_dates (combine_times_with_date d sr ss mt nt u))) :
    (TimeIntervalCalculator.get_interval HI LO r).isSome = true := by
  obtain ⟨hA1, hA2, hA3, hA4⟩ :=
    adjust_dates_sameDay d sr ss mt nt u
      (DateAdjustment.adjust_dates (combine_times_with_date d sr ss mt nt u))
      hmt hsr hss hnt rfl
  subst hr
  set s := DateAdjustment.adjust_dates (combine_times_with_date d sr ss mt nt u) with hs
  obtain ⟨f1, f2, f3, f4, _⟩ := process_midday_frame s
  simp only [dayLength] at hA2 hA3 hA4 hmt hsr hss hnt
  rw [get_interval_eval HI LO _ (by omega) (by omega)]
  rfl

/-- Witness for `engine_total_pos_twilight` at the §8 scenario. -/
theorem engine_total_pos_twilight_witness :
    (TimeIntervalCalculator.get_interval 6000 2700 (scenarioPipeline (hm 12 0))).isSome
      = true :=
  engine_total_pos_twilight 6000 2700 0 (hm 6 0) (hm 18 0) (hm 5 30) (hm 18 30) (hm 12 0)
    (scenarioPipeline (hm 12 0)) (by decide) (by decide) (by decide) (by decide)
    (by decide) (by decide) rfl


/-- C4: on every input (in particular every input with the four phases on one
day) `adjust_dates` performs exactly the three ordered conditional
corrections described by the claim, transcribed as
`adjust_dates_three_step`. -/
theorem adjust_dates_is_three_step (s : SunTimes) :
    DateAdjustment.adjust_dates s = adjust_dates_three_step s := rfl

/-- Counterexample to C5 as stated: on the §8 midnight-wrap input (a set of
four same-day time-of-day values) `adjust_dates` advances three of the four
phase values — sunrise, sunset and night twilight all change — not "zero,
one, or two" of them. -/
theorem adjust_dates_advance_count_cex :
    (DateAdjustment.adjust_dates wrapState).sunrise ≠ wrapState.sunrise ∧
    (DateAdjustment.adjust_dates wrapState).sunset ≠ wrapState.sunset ∧
    (DateAdjustment.adjust_dates wrapState).night_twilight ≠ wrapState.night_twilight := by
  decide

/-- C5 as amended: for every set of four same-day time-of-day inputs and
every `user_time`, the output of `adjust_dates` keeps `morning_twilight` at
its input value and advances each remaining field by a whole number of days:
`sunrise` by zero or one day, `sunset` by zero, one or two days, and
`night_twilight` and `user_time` by zero to three days (the counterexample
shows that three phases can advance at once, so the claim's limit of two
advanced values, and of one day for `user_time`, cannot be kept). -/
theorem adjust_dates_advance_bounds (s : SunTimes) :
    (DateAdjustment.adjust_dates s).morning_twilight = s.morning_twilight ∧
    ((DateAdjustment.adjust_dates s).sunrise = s.sunrise ∨
      (DateAdjustment.adjust_dates s).sunrise = s.sunrise + dayLength) ∧
    ((DateAdjustment.adjust_dates s).sunset = s.sunset ∨
      (DateAdjustment.adjust_dates s).sunset = s.sunset + dayLength ∨
      (DateAdjustment.adjust_dates s).sunset = s.sunset + 2 * dayLength) ∧
    ((DateAdjustment.adjust_dates s).night_twilight = s.night_twilight ∨
      (DateAdjustment.adjust_dates s).night_twilight = s.night_twilight + dayLength ∨
      (DateAdjustment.adjust_dates s).night_twilight = s.night_twilight + 2 * dayLength ∨
      (DateAdjustment.adjust_dates s).night_twilight = s.night_twilight + 3 * dayLength) ∧
    ((DateAdjustment.adjust_dates s).user_time = s.user_time ∨
      (DateAdjustment.adjust_dates s).user_time = s.user_time + dayLength ∨
      (DateAdjustment.adjust_dates s).user_time = s.user_time + 2 * dayLength ∨
      (DateAdjustment.adjust_dates s).user_time = s.user_time + 3 * dayLength) := by
  obtain ⟨a, b, c, d, e, f, g⟩ := s
  dsimp only [DateAdjustment.adjust_dates, DateAdjustment.sunrise_before_twilight,
    DateAdjustment.sunset_before_sunrise, DateAdjustment.night_twilight_before_sunset,
    timeOfDay, dayLength]
  split_ifs <;> (try dsimp only at *) <;> omega

/-- C6: on the §8 midnight-wrap input, `adjust_dates` places sunrise, sunset
and night twilight exactly one calendar day after morning twilight, leaves
morning twilight where it was, and leaves `user_time` unchanged on the
earlier day (its time-of-day 23:45 does not precede the wrapped sunrise's
time-of-day 00:30). -/
theorem midnight_wrap_example :
    dayOf (DateAdjustment.adjust_dates wrapState).sunrise =
      dayOf (DateAdjustment.adjust_dates wrapState).morning_twilight + 1 ∧
    dayOf (DateAdjustment.adjust_dates wrapState).sunset =
      dayOf (DateAdjustment.adjust_dates wrapState).morning_twilight + 1 ∧
    dayOf (DateAdjustment.adjust_dates wrapState).night_twilight =
      dayOf (DateAdjustment.adjust_dates wrapState).morning_twilight + 1 ∧
    (DateAdjustment.adjust_dates wrapState).morning_twilight = wrapState.morning_twilight ∧
    (DateAdjustment.adjust_dates wrapState).user_time = wrapState.user_time ∧
    dayOf (DateAdjustment.adjust_dates wrapState).user_time =
      dayOf (DateAdjustment.adjust_dates wrapState).morning_twilight := by
  decide

/-- C7: full pipeline on the §8 scenario (`HI=6000, LO=2700`,
`sunrise=06:00, sunset=18:00, morning_twilight=05:30, night_twilight=18:30`):
the plateau is `06:30 – 17:30`, and `get_interval` returns `6000` at 16:00,
`2700` at 03:30, `3525` at 05:45 and `5175` at 17:45. -/
theorem concrete_scenarios_example :
    (scenarioPipeline (hm 16 0)).midday_period_begins = hm 6 30 ∧
    (scenarioPipeline (hm 16 0)).midday_period_ends = hm 17 30 ∧
    TimeIntervalCalculator.get_interval 6000 2700 (scenarioPipeline (hm 16 0)) = some 6000 ∧
    TimeIntervalCalculator.get_interval 6000 2700 (scenarioPipeline (hm 3 30)) = some 2700 ∧
    TimeIntervalCalculator.get_interval 6000 2700 (scenarioPipeline (hm 5 45)) = some 3525 ∧
    TimeIntervalCalculator.get_interval 6000 2700 (scenarioPipeline (hm 17 45)) = some 5175 := by
  have h16 : scenarioPipeline (hm 16 0) =
      ⟨hm 6 0, hm 18 0, hm 5 30, hm 18 30, hm 6 30, hm 17 30, hm 16 0⟩ := by decide
  have h330 : scenarioPipeline (hm 3 30) =
      ⟨hm 6 0, hm 18 0, hm 5 30, hm 18 30, hm 6 30, hm 17 30, hm 3 30⟩ := by decide
  have h545 : scenarioPipeline (hm 5 45) =
      ⟨hm 6 0, hm 18 0, hm 5 30, hm 18 30, hm 6 30, hm 17 30, hm 5 45⟩ := by decide
  have h1745 : scenarioPipeline (hm 17 45) =
      ⟨hm 6 0, hm 18 0, hm 5 30, hm 18 30, hm 6 30, hm 17 30, hm 17 45⟩ := by decide
  refine ⟨?_, ?_, ?_, ?_, ?_, ?_⟩
  · rw [h16]
  · rw [h16]
  · rw [h16]; decide
  · rw [h330]; decide
  · rw [h545, get_interval_eval 6000 2700 _ (by decide) (by decide)]
    have hn1 : ¬(hm 6 30 < hm 5 45 ∧ hm 5 45 < hm 17 30) := by decide
    have hp2 : hm 5 30 ≤ hm 5 45 ∧ hm 5 45 ≤ hm 6 30 := by decide
    simp only [get_interval_spec, if_neg hn1, if_pos hp2, Option.some_inj]
    apply pythonRound_eq_intCast
    norm_num [hm]
  · rw [h1745, get_interval_eval 6000 2700 _ (by decide) (by decide)]
    have hn1 : ¬(hm 6 30 < hm 17 45 ∧ hm 17 45 < hm 17 30) := by decide
    have hn2 : ¬(hm 5 30 ≤ hm 17 45 ∧ hm 17 45 ≤ hm 6 30) := by decide
    have hp3 : hm 17 30 ≤ hm 17 45 ∧ hm 17 45 ≤ hm 18 30 := by decide
    simp only [get_interval_spec, if_neg hn1, if_neg hn2, if_pos hp3, Option.some_inj]
    apply pythonRound_eq_intCast
    norm_num [hm]

/-- Counterexample to C8 as stated: `asymState` is normalised
(`morning_twilight ≤ sunrise` and `sunset ≤ night_twilight`), but after
`process_midday_period` the evening symmetry fails: the computed midday end
(11:00) precedes the midday begin (15:00), the one-day fix-up fires, and
`sunset − midday_period_ends` becomes −19 h while
`night_twilight − sunset` is 5 h. -/
theorem midday_symmetry_cex :
    asymState.morning_twilight ≤ asymState.sunrise ∧
    asymState.sunset ≤ asymState.night_twilight ∧
    ¬((MiddayPeriodCalculator.process_midday_period asymState).sunset -
        (MiddayPeriodCalculator.process_midday_period asymState).midday_period_ends =
      (MiddayPeriodCalculator.process_midday_period asymState).night_twilight -
        (MiddayPeriodCalculator.process_midday_period asymState).sunset) := by
  decide

/-- C8 as amended: on a normalised state whose mirrored plateau is non-empty
(`sunrise + (sunrise − morning_twilight) ≤ sunset − (night_twilight −
sunset)`, the extra hypothesis forced by `midday_symmetry_cex`),
`process_midday_period` satisfies both symmetry equations:
`midday_period_begins − sunrise = sunrise − morning_twilight` and
`sunset − midday_period_ends = night_twilight − sunset`. -/
theorem midday_symmetry (s : SunTimes)
    (hmt : s.morning_twilight ≤ s.sunrise)
    (hnt : s.sunset ≤ s.night_twilight)
    (hpl : s.sunrise + (s.sunrise - s.morning_twilight) ≤
      s.sunset - (s.night_twilight - s.sunset)) :
    (MiddayPeriodCalculator.process_midday_period s).midday_period_begins -
      (MiddayPeriodCalculator.process_midday_period s).sunrise =
      (MiddayPeriodCalculator.process_midday_period s).sunrise -
        (MiddayPeriodCalculator.process_midday_period s).morning_twilight ∧
    (MiddayPeriodCalculator.process_midday_period s).sunset -
      (MiddayPeriodCalculator.process_midday_period s).midday_period_ends =
      (MiddayPeriodCalculator.process_midday_period s).night_twilight -
        (MiddayPeriodCalculator.process_midday_period s).sunset := by
  obtain ⟨hb, he⟩ := process_midday_values s hmt hnt hpl
  obtain ⟨f1, f2, f3, f4, _⟩ := process_midday_frame s
  constructor <;> omega

/-- Witness for `midday_symmetry` at the §8 scenario phases. -/
theorem midday_symmetry_witness :
    (MiddayPeriodCalculator.process_midday_period regionState).midday_period_begins -
      (MiddayPeriodCalculator.process_midday_period regionState).sunrise =
      (MiddayPeriodCalculator.process_midday_period regionState).sunrise -
        (MiddayPeriodCalculator.process_midday_period regionState).morning_twilight ∧
    (MiddayPeriodCalculator.process_midday_period regionState).sunset -
      (MiddayPeriodCalculator.process_midday_period regionState).midday_period_ends =
      (MiddayPeriodCalculator.process_midday_period regionState).night_twilight -
        (MiddayPeriodCalculator.process_midday_period regionState).sunset :=
  midday_symmetry regionState (by decide) (by decide) (by decide)

/-- C9: `adjust_dates` never modifies `morning_twilight` (nor the midday
fields), and each field it can modify — sunrise, sunset, night twilight,
user time — never decreases, moves by a whole number of days, and keeps its
time-of-day component. -/
theorem adjust_dates_frame (s : SunTimes) :
    (DateAdjustment.adjust_dates s).morning_twilight = s.morning_twilight ∧
    (DateAdjustment.adjust_dates s).midday_period_begins = s.midday_period_begins ∧
    (DateAdjustment.adjust_dates s).midday_period_ends = s.midday_period_ends ∧
    (s.sunrise ≤ (DateAdjustment.adjust_dates s).sunrise ∧
      dayLength ∣ (DateAdjustment.adjust_dates s).sunrise - s.sunrise ∧
      timeOfDay (DateAdjustment.adjust_dates s).sunrise = timeOfDay s.sunrise) ∧
    (s.sunset ≤ (DateAdjustment.adjust_dates s).sunset ∧
      dayLength ∣ (DateAdjustment.adjust_dates s).sunset - s.sunset ∧
      timeOfDay (DateAdjustment.adjust_dates s).sunset = timeOfDay s.sunset) ∧
    (s.night_twilight ≤ (DateAdjustment.adjust_dates s).night_twilight ∧
      dayLength ∣ (DateAdjustment.adjust_dates s).night_twilight - s.night_twilight ∧
      timeOfDay (DateAdjustment.adjust_dates s).night_twilight = timeOfDay s.night_twilight) ∧
    (s.user_time ≤ (DateAdjustment.adjust_dates s).user_time ∧
      dayLength ∣ (DateAdjustment.adjust_dates s).user_time - s.user_time ∧
      timeOfDay (DateAdjustment.adjust_dates s).user_time = timeOfDay s.user_time) := by
  obtain ⟨a, b, c, d, e, f, g⟩ := s
  dsimp only [DateAdjustment.adjust_dates, DateAdjustment.sunrise_before_twilight,
    DateAdjustment.sunset_before_sunrise, DateAdjustment.night_twilight_before_sunset,
    timeOfDay, dayLength]
  split_ifs <;> (try dsimp only at *) <;> omega

/-- C10: whenever `morning_twilight ≤ sunrise`, the first fix-up branch of
`midday_period_adjustment` is unreachable — after `calculate_midday_period`
the computed `midday_period_begins` is neither before sunrise nor before
morning twilight — and consequently `process_midday_period` leaves
`midday_period_begins` at its mirrored value
`sunrise + (sunrise − morning_twilight)`, never advancing it by a day. -/
theorem midday_first_fixup_unreachable (s : SunTimes)
    (h : s.morning_twilight ≤ s.sunrise) :
    ¬((MiddayPeriodCalculator.calculate_midday_period s).midday_period_begins <
        (MiddayPeriodCalculator.calculate_midday_period s).sunrise ∨
      (MiddayPeriodCalculator.calculate_midday_period s).midday_period_begins <
        (MiddayPeriodCalculator.calculate_midday_period s).morning_twilight) ∧
    (MiddayPeriodCalculator.process_midday_period s).midday_period_begins =
      s.sunrise + (s.sunrise - s.morning_twilight) := by
  obtain ⟨a, b, c, d, e, f, g⟩ := s
  dsimp only at h
  dsimp only [MiddayPeriodCalculator.process_midday_period,
    MiddayPeriodCalculator.calculate_midday_period,
    MiddayPeriodCalculator.midday_period_adjustment]
  split_ifs <;> (try dsimp only at *) <;> omega

/-- Witness for `midday_first_fixup_unreachable` at the §8 scenario phases. -/
theorem midday_first_fixup_unreachable_witness :
    ¬((MiddayPeriodCalculator.calculate_midday_period regionState).midday_period_begins <
        (MiddayPeriodCalculator.calculate_midday_period regionState).sunrise ∨
      (MiddayPeriodCalculator.calculate_midday_period regionState).midday_period_begins <
        (MiddayPeriodCalculator.calculate_midday_period regionState).morning_twilight) ∧
    (MiddayPeriodCalculator.process_midday_period regionState).midday_period_begins =
      regionState.sunrise + (regionState.sunrise - regionState.morning_twilight) :=
  midday_first_fixup_unreachable regionState (by decide)
